import Mathlib

set_option maxHeartbeats 1000000

/-! Shallow embedding of the kakao-chatbot component/validation/rendering engine
(`kakao_chatbot/base.py`, `context.py`, `event.py`,
`response/components/card.py`), together with proofs about its specified
behaviour.  Python dictionaries are embedded as association lists in insertion
order, Python `None` as an explicit value, and raising code as `Except`. -/

/-- Python runtime values as used by the library: strings, ints, booleans,
`None`, dicts (association lists in insertion order) and lists. -/
inductive PyVal where
  | str (s : String)
  | int (n : Int)
  | bool (b : Bool)
  | none
  | dict (entries : List (String × PyVal))
  | list (xs : List PyVal)

/-- Errors raised by the library: the customerror.py hierarchy
(InvalidTypeError, InvalidActionError, plain ValueError) plus Python
AssertionError and IndexError. -/
inductive PyErr where
  | invalidType (msg : String)
  | invalidAction (msg : String)
  | invalidLink (msg : String)
  | valueError (msg : String)
  | assertionError (msg : String)
  | indexError
deriving DecidableEq

/-- BaseModel.remove_none_item from base.py: returns the dictionary with every
key-value pair whose value is Python `None` removed. -/
def remove_none_item : List (String × PyVal) → List (String × PyVal)
  | [] => []
  | (k, v) :: rest =>
    match v with
    | PyVal.none => remove_none_item rest
    | _ => (k, v) :: remove_none_item rest

/-- Boolean prefix test on character lists, modelling Python str.startswith. -/
def charsPrefix : List Char → List Char → Bool
  | [], _ => true
  | _ :: _, [] => false
  | a :: as, b :: bs => a == b && charsPrefix as bs

/-- Python s.startswith(pre). -/
def pyStartswith (s pre : String) : Bool := charsPrefix pre.data s.data

/-- Python s.endswith(suf). -/
def pyEndswith (s suf : String) : Bool :=
  charsPrefix suf.data.reverse s.data.reverse

/-- Python s[:-1] on a string: drops the last character. -/
def pyDropLast (s : String) : String := String.mk s.data.dropLast

/-- Modelled from the spec: validation.py is not among the sources.  Section
4.1 specifies a string assertion taking zero or more values, failing with a
TypeMismatch error when a present value is not a string, failing on an absent
(None) value only when disallowNone is set, and short-circuiting on the first
failure. -/
def validate_str (disallow_none : Bool) : List PyVal → Except PyErr Unit
  | [] => Except.ok ()
  | v :: rest =>
    match v with
    | PyVal.str _ => validate_str disallow_none rest
    | PyVal.none =>
      if disallow_none then Except.error (PyErr.invalidType "str expected, got None")
      else validate_str disallow_none rest
    | _ => Except.error (PyErr.invalidType "str expected")

/-- Modelled from the spec: validation.py is not among the sources.  Section
4.1 specifies an integer assertion with the same shape as the string one. -/
def validate_int (disallow_none : Bool) : List PyVal → Except PyErr Unit
  | [] => Except.ok ()
  | v :: rest =>
    match v with
    | PyVal.int _ => validate_int disallow_none rest
    | PyVal.none =>
      if disallow_none then Except.error (PyErr.invalidType "int expected, got None")
      else validate_int disallow_none rest
    | _ => Except.error (PyErr.invalidType "int expected")

/-- ContextParam from context.py: carries a raw value and a resolved_value. -/
structure ContextParam where
  value : PyVal
  resolved_value : PyVal

/-- ContextParam.validate from context.py: validate_str(value, resolved_value). -/
def ContextParam.validate (p : ContextParam) : Except PyErr Unit :=
  validate_str false [p.value, p.resolved_value]

/-- ContextParam.render from context.py: calls validate() first, then returns
only the scalar value (never resolved_value). -/
def ContextParam.render (p : ContextParam) : Except PyErr PyVal := do
  p.validate
  pure p.value

/-- Entry of Context.params: either a ContextParam object or any other Python
value, mirroring the isinstance(param, ContextParam) check in Context.render. -/
inductive CtxEntry where
  | param (p : ContextParam)
  | raw (v : PyVal)

/-- Context from context.py.  name, lifespan and ttl are raw Python values so
that ill-typed states (e.g. a non-string name) are representable; params is the
params dict. -/
structure Context where
  name : PyVal
  lifespan : PyVal
  ttl : PyVal
  params : List (String × CtxEntry)

/-- Context.validate from context.py: validate_str(name),
validate_int(lifespan, ttl), validate_type(dict, params); the last check always
succeeds here since params is a dict by construction. -/
def Context.validate (c : Context) : Except PyErr Unit := do
  validate_str false [c.name]
  validate_int false [c.lifespan, c.ttl]
  pure ()

/-- Rendering of the Context.params entries (context.py line 131): a
ContextParam is rendered via its own render(), any other value is passed
through unchanged. -/
def renderCtxParams : List (String × CtxEntry) → Except PyErr (List (String × PyVal))
  | [] => Except.ok []
  | (k, CtxEntry.param p) :: rest => do
    let v ← p.render
    let tail ← renderCtxParams rest
    pure ((k, v) :: tail)
  | (k, CtxEntry.raw v) :: rest => do
    let tail ← renderCtxParams rest
    pure ((k, v) :: tail)

/-- Context.render from context.py: builds the response dict directly, without
any call to Context.validate; an empty params dict is falsy in Python, becomes
None and is then dropped by remove_none_item. -/
def Context.render (c : Context) : Except PyErr PyVal := do
  let ps ←
    match c.params with
    | [] => pure PyVal.none
    | _ => do
      let entries ← renderCtxParams c.params
      pure (PyVal.dict entries)
  pure (PyVal.dict (remove_none_item
    [("name", c.name), ("lifeSpan", c.lifespan), ("ttl", c.ttl), ("params", ps)]))

/-- Lifts an optional string to a Python value (absent becomes None). -/
def optStr : Option String → PyVal
  | Option.none => PyVal.none
  | Option.some s => PyVal.str s

/-- Lifts an optional integer to a Python value (absent becomes None). -/
def optInt : Option Int → PyVal
  | Option.none => PyVal.none
  | Option.some n => PyVal.int n

/-- Lifts an optional dict to a Python value (absent becomes None). -/
def optDict : Option (List (String × PyVal)) → PyVal
  | Option.none => PyVal.none
  | Option.some d => PyVal.dict d

/-- Modelled from the spec: Link (response/components/common.py is not among
the sources).  Section 3 gives optional web / platform-specific URLs with at
least one field required for validity. -/
structure Link where
  web : Option String := Option.none
  pc : Option String := Option.none
  mobile : Option String := Option.none

/-- Modelled from the spec: Link.validate fails (InvalidLink) unless at least
one of the policy-defined URL fields is present. -/
def Link.validate (l : Link) : Except PyErr Unit :=
  if l.web.isSome || l.pc.isSome || l.mobile.isSome then Except.ok ()
  else Except.error (PyErr.invalidLink "at least one link field is required")

/-- Modelled from the spec: Link.render validates first, then emits the present
fields and omits the absent ones. -/
def Link.render (l : Link) : Except PyErr PyVal := do
  l.validate
  pure (PyVal.dict (remove_none_item
    [("web", optStr l.web), ("pc", optStr l.pc), ("mobile", optStr l.mobile)]))

/-- Renders an optional link: an absent link renders as None, a present one
via Link.render. -/
def renderOptLink : Option Link → Except PyErr PyVal
  | Option.none => pure PyVal.none
  | Option.some l => l.render

/-- Modelled from the spec: Thumbnail (common.py is not among the sources).
Section 3: image URL plus optional link, width, height and a fixed-ratio flag. -/
structure Thumbnail where
  image_url : String
  link : Option Link := Option.none
  fixedRatioFlag : Bool := false
  width : Option Int := Option.none
  height : Option Int := Option.none

/-- Modelled from the spec: Thumbnail.render per section 4.2: required imageUrl
present, optional fields omitted when absent, wire keys in camelCase. -/
def Thumbnail.render (t : Thumbnail) : Except PyErr PyVal := do
  let lk ← renderOptLink t.link
  pure (PyVal.dict (remove_none_item
    [("imageUrl", PyVal.str t.image_url), ("link", lk),
     ("fixedRatio", if t.fixedRatioFlag then PyVal.bool true else PyVal.none),
     ("width", optInt t.width), ("height", optInt t.height)]))

/-- Modelled from the spec: Button (common.py is not among the sources).
Fields per section 3; the action-dependent payload fields are optional. -/
structure Button where
  label : String
  action : String
  web_link_url : Option String := Option.none
  message_text : Option String := Option.none
  phone_number : Option String := Option.none
  block_id : Option String := Option.none
  extra : Option (List (String × PyVal)) := Option.none

/-- Action enumeration from section 4.2. -/
def Button.actions : List String :=
  ["webLink", "message", "phone", "block", "share", "operator"]

/-- Modelled from the spec: the payload field selected by the action must be
present (section 4.2 action-dependent requiredness). -/
def Button.requiredOk (b : Button) : Bool :=
  if b.action == "webLink" then b.web_link_url.isSome
  else if b.action == "message" then b.message_text.isSome
  else if b.action == "phone" then b.phone_number.isSome
  else if b.action == "block" then b.block_id.isSome
  else true

/-- Modelled from the spec: Button.validate: the action must belong to the
fixed enumeration (InvalidAction otherwise) and its selected payload field must
be present. -/
def Button.validate (b : Button) : Except PyErr Unit :=
  if b.action ∈ Button.actions then
    if b.requiredOk then Except.ok ()
    else Except.error (PyErr.valueError "payload field required by action is missing")
  else Except.error (PyErr.invalidAction "unsupported action")

/-- Modelled from the spec: Button.render validates first, then emits present
fields under their camelCase wire names, omitting absent optional ones. -/
def Button.render (b : Button) : Except PyErr PyVal := do
  b.validate
  pure (PyVal.dict (remove_none_item
    [("label", PyVal.str b.label), ("action", PyVal.str b.action),
     ("webLinkUrl", optStr b.web_link_url), ("messageText", optStr b.message_text),
     ("phoneNumber", optStr b.phone_number), ("blockId", optStr b.block_id),
     ("extra", optDict b.extra)]))

/-- Modelled from the spec: ListItem (common.py is not among the sources).
Fields follow section 3 and the add_item overload signature in card.py: a
required title plus optional description, image URL, link and Button-style
action payload fields. -/
structure ListItem where
  title : String
  description : Option String := Option.none
  image_url : Option String := Option.none
  link : Option Link := Option.none
  action : Option String := Option.none
  block_id : Option String := Option.none
  message_text : Option String := Option.none
  extra : Option (List (String × PyVal)) := Option.none

/-- Modelled from the spec: ListItem.validate: the title is a present string
(always true here by typing); an action, when chosen, must be a member of the
enumeration with its payload field present. -/
def ListItem.validate (li : ListItem) : Except PyErr Unit :=
  match li.action with
  | Option.none => Except.ok ()
  | Option.some a =>
    if a ∈ Button.actions then
      if (if a == "block" then li.block_id.isSome
          else if a == "message" then li.message_text.isSome
          else true) then Except.ok ()
      else Except.error (PyErr.valueError "payload field required by action is missing")
    else Except.error (PyErr.invalidAction "unsupported action")

/-- Modelled from the spec: ListItem.render validates first, then emits the
present fields with camelCase wire keys, omitting absent optional ones. -/
def ListItem.render (li : ListItem) : Except PyErr PyVal := do
  li.validate
  let lk ← renderOptLink li.link
  pure (PyVal.dict (remove_none_item
    [("title", PyVal.str li.title), ("description", optStr li.description),
     ("imageUrl", optStr li.image_url), ("link", lk),
     ("action", optStr li.action), ("blockId", optStr li.block_id),
     ("messageText", optStr li.message_text), ("extra", optDict li.extra)]))

/-- Modelled from the spec: Item of the item-card family
(response/components/itemcard.py is not among the sources); per card.py's
add_item overload an Item is built from a title and a description. -/
structure Item where
  title : String
  description : String
deriving DecidableEq

/-- Modelled from the spec: Item.render emits both fields. -/
def Item.render (i : Item) : Except PyErr PyVal :=
  Except.ok (PyVal.dict (remove_none_item
    [("title", PyVal.str i.title), ("description", PyVal.str i.description)]))

/-- Renders a button list in order, failing on the first invalid button. -/
def render_buttons : List Button → Except PyErr (List PyVal)
  | [] => Except.ok []
  | b :: rest => do
    let v ← b.render
    let tail ← render_buttons rest
    pure (v :: tail)

/-- Renders a ListItem list in order, failing on the first invalid item. -/
def render_listitems : List ListItem → Except PyErr (List PyVal)
  | [] => Except.ok []
  | li :: rest => do
    let v ← li.render
    let tail ← render_listitems rest
    pure (v :: tail)

/-- Renders the button list expression of card.py:
`[button.render() for button in self.buttons] if self.buttons else None` — an
empty (falsy) list renders as None. -/
def renderButtonsOpt (btns : List Button) : Except PyErr PyVal :=
  match btns with
  | [] => pure PyVal.none
  | _ => do
    let vs ← render_buttons btns
    pure (PyVal.list vs)

/-- Renders the item list expression of card.py:
`[item.render() for item in self.items] if self.items else None` — an empty
(falsy) list renders as None. -/
def renderListitemsOpt (items : List ListItem) : Except PyErr PyVal :=
  match items with
  | [] => pure PyVal.none
  | _ => do
    let vs ← render_listitems items
    pure (PyVal.list vs)

/-- TextCardComponent from card.py: optional title and description plus the
button list inherited from ParentCardComponent. -/
structure TextCardComponent where
  title : Option String := Option.none
  description : Option String := Option.none
  buttons : List Button := []

/-- TextCardComponent.validate from card.py: after the inherited checks (which
hold by typing here), raises ValueError when both title and description are
None; the remaining validate_str on the present field succeeds by typing. -/
def TextCardComponent.validate (c : TextCardComponent) : Except PyErr Unit :=
  match c.title, c.description with
  | Option.none, Option.none =>
    Except.error (PyErr.valueError "title or description must not be None")
  | _, _ => Except.ok ()

/-- TextCardComponent.render from card.py: validates first, then emits title,
description and the rendered buttons, dropping the absent ones; an empty button
list is falsy and becomes None. -/
def TextCardComponent.render (c : TextCardComponent) : Except PyErr PyVal := do
  c.validate
  let bs ← renderButtonsOpt c.buttons
  pure (PyVal.dict (remove_none_item
    [("title", optStr c.title), ("description", optStr c.description),
     ("buttons", bs)]))

/-- BasicCardComponent from card.py: a required thumbnail, optional title and
description, buttons, and the forwardable flag defaulting to False. -/
structure BasicCardComponent where
  thumbnail : Thumbnail
  title : Option String := Option.none
  description : Option String := Option.none
  buttons : List Button := []
  forwardable : Bool := false

/-- BasicCardComponent.validate from card.py: the inherited button-type checks,
validate_type(Thumbnail, thumbnail) and validate_str(title, description) all
succeed on this typed state, so validation always passes. -/
def BasicCardComponent.validate (_c : BasicCardComponent) : Except PyErr Unit :=
  Except.ok ()

/-- BasicCardComponent.render from card.py: validates first, then emits
thumbnail, title, description, buttons and forwardable; the forwardable value
is `self.forwardable if self.forwardable else None`, so a False flag becomes
None and the key is dropped. -/
def BasicCardComponent.render (c : BasicCardComponent) : Except PyErr PyVal := do
  c.validate
  let th ← c.thumbnail.render
  let bs ← renderButtonsOpt c.buttons
  pure (PyVal.dict (remove_none_item
    [("thumbnail", th), ("title", optStr c.title),
     ("description", optStr c.description), ("buttons", bs),
     ("forwardable", if c.forwardable then PyVal.bool true else PyVal.none)]))

/-- ListCardComponent from card.py: a header ListItem, item and button lists,
and the configurable caps (max_buttons defaults to 2, max_items to 5). -/
structure ListCardComponent where
  header : ListItem
  items : List ListItem := []
  buttons : List Button := []
  max_buttons : Nat := 2
  max_items : Nat := 5

/-- ListCardComponent.validate from card.py: after the inherited button-type
checks (which hold by typing), asserts at least one item, at most max_items
items and at most max_buttons buttons; the final validate_type checks on the
header and the items hold by typing. -/
def ListCardComponent.validate (c : ListCardComponent) : Except PyErr Unit :=
  if c.items.length < 1 then
    Except.error (PyErr.assertionError "ListCardComponent requires at least one item")
  else if c.items.length > c.max_items then
    Except.error (PyErr.assertionError "ListCard allows at most max_items items")
  else if c.buttons.length > c.max_buttons then
    Except.error (PyErr.assertionError "ListCard allows at most max_buttons buttons")
  else Except.ok ()

/-- ListCardComponent.render from card.py: validates first, then emits the
rendered header, items and buttons; empty collections are falsy, become None
and are dropped. -/
def ListCardComponent.render (c : ListCardComponent) : Except PyErr PyVal := do
  c.validate
  let hd ← c.header.render
  let its ← renderListitemsOpt c.items
  let bs ← renderButtonsOpt c.buttons
  pure (PyVal.dict (remove_none_item
    [("header", hd), ("items", its), ("buttons", bs)]))

/-- Argument of the dual-mode ListCardComponent.add_item from card.py: either a
pre-built ListItem (appended directly) or the raw ListItem constructor fields. -/
inductive AddItemArg where
  | prebuilt (item : ListItem)
  | fields (title : String) (description : Option String) (image_url : Option String)
      (link : Option Link) (action : Option String) (block_id : Option String)
      (message_text : Option String) (extra : Option (List (String × PyVal)))

/-- ListCardComponent.add_item from card.py: a pre-built ListItem is appended
as is; raw constructor fields first build a ListItem which is then appended. -/
def ListCardComponent.add_item (c : ListCardComponent) : AddItemArg → ListCardComponent
  | AddItemArg.prebuilt li => { c with items := c.items ++ [li] }
  | AddItemArg.fields t d iu lk a bid mt ex =>
    { c with items := c.items ++ [ListItem.mk t d iu lk a bid mt ex] }

/-- Argument of the dual-mode ParentCardComponent.add_button from card.py:
either a pre-built Button or the raw Button constructor arguments. -/
inductive AddButtonArg where
  | prebuilt (button : Button)
  | fields (label : String) (action : String) (web_link_url : Option String)
      (message_text : Option String) (phone_number : Option String)
      (block_id : Option String) (extra : Option (List (String × PyVal)))

/-- ParentCardComponent.add_button from card.py, at its ListCardComponent
instance: a pre-built Button is appended as is; raw constructor arguments first
build a Button which is then appended. -/
def ListCardComponent.add_button (c : ListCardComponent) : AddButtonArg → ListCardComponent
  | AddButtonArg.prebuilt b => { c with buttons := c.buttons ++ [b] }
  | AddButtonArg.fields l a w m p bid ex =>
    { c with buttons := c.buttons ++ [Button.mk l a w m p bid ex] }

/-- ItemCardComponent from card.py, restricted to the item_list state used by
its add_item/remove_item operations. -/
structure ItemCardComponent where
  item_list : List Item

/-- Positional argument of ItemCardComponent.remove_item: an Item, an int, or
any other Python value (isinstance decides the branch). -/
inductive RemoveItemArg where
  | item (i : Item)
  | intArg (n : Int)
  | other (v : PyVal)

/-- Keyword arguments of ItemCardComponent.remove_item. -/
structure RemoveItemKwargs where
  item : Option Item := Option.none
  index : Option Int := Option.none

/-- Python list.remove: removes the first element equal to x, raising
ValueError when no element matches. -/
def pyListRemove (l : List Item) (x : Item) : Except PyErr (List Item) :=
  match l with
  | [] => Except.error (PyErr.valueError "list.remove(x): x not in list")
  | y :: rest =>
    if y = x then Except.ok rest
    else do
      let tail ← pyListRemove rest x
      pure (y :: tail)

/-- Python list.pop(i): supports negative indices and raises IndexError when
the index is out of range. -/
def pyListPop (l : List Item) (i : Int) : Except PyErr (List Item) :=
  let j : Int := if i < 0 then i + l.length else i
  if 0 ≤ j ∧ j < l.length then Except.ok (l.eraseIdx j.toNat)
  else Except.error PyErr.indexError

/-- ItemCardComponent.remove_item from card.py: the first branch evaluates
isinstance(args[0], Item), so args[0] is read before any keyword branch; with
no positional argument this indexing raises IndexError.  When no branch
matches, the method falls through leaving the list unchanged. -/
def ItemCardComponent.remove_item (c : ItemCardComponent) (args : List RemoveItemArg)
    (kwargs : RemoveItemKwargs) : Except PyErr ItemCardComponent :=
  match args with
  | [] => Except.error PyErr.indexError
  | a :: _ =>
    match a with
    | RemoveItemArg.item i => do
      let l ← pyListRemove c.item_list i
      pure { c with item_list := l }
    | RemoveItemArg.intArg n => do
      let l ← pyListPop c.item_list n
      pure { c with item_list := l }
    | RemoveItemArg.other _ =>
      match kwargs.item with
      | Option.some i => do
        let l ← pyListRemove c.item_list i
        pure { c with item_list := l }
      | Option.none =>
        match kwargs.index with
        | Option.some n => do
          let l ← pyListPop c.item_list n
          pure { c with item_list := l }
        | Option.none => pure c

/-- EventUser from event.py: id type, user id (a raw Python value, so that a
missing or ill-typed id is representable) and optional per-user properties. -/
structure EventUser where
  id_type : String
  id : PyVal
  properties : Option (List (String × PyVal)) := Option.none

/-- Allowed id types, the class attribute type_list in event.py. -/
def EventUser.type_list : List String := ["appUserId", "plusfriendUserKey", "botUserKey"]

/-- EventUser.validate from event.py: asserts that id_type is in type_list,
requires a present string id, and type-checks the optional properties dict
(which holds by typing here). -/
def EventUser.validate (u : EventUser) : Except PyErr Unit :=
  if u.id_type ∈ EventUser.type_list then validate_str true [u.id]
  else Except.error (PyErr.assertionError "id_type must be one of type_list")

/-- EventUser.render from event.py: emits type, id and properties with None
values removed; no validation is performed here. -/
def EventUser.render (u : EventUser) : PyVal :=
  PyVal.dict (remove_none_item
    [("type", PyVal.str u.id_type), ("id", u.id),
     ("properties", optDict u.properties)])

/-- EventAPI from event.py: bot id, api key, event name, users, free-form
data/params/option dicts, dev-channel flag and the user cap. -/
structure EventAPI where
  bot_id : String
  api_key : String
  event : String
  users : List EventUser := []
  data : List (String × PyVal) := []
  params : List (String × PyVal) := []
  option : Option (List (String × PyVal)) := Option.none
  is_devchannel : Bool := false
  max_user : Nat := 100

/-- EventAPI.__init__ from event.py: when is_devchannel is set and bot_id ends
with the trailing marker character, the marker is stripped before storing;
users, data and params default to empty collections. -/
def EventAPI.init (bot_id api_key event : String) (users : List EventUser)
    (data params : List (String × PyVal)) (option : Option (List (String × PyVal)))
    (is_devchannel : Bool) (max_user : Nat) : EventAPI :=
  { bot_id := if is_devchannel && pyEndswith bot_id "!" then pyDropLast bot_id else bot_id,
    api_key := api_key, event := event, users := users, data := data,
    params := params, option := option, is_devchannel := is_devchannel,
    max_user := max_user }

/-- Validation loop over the user list from EventAPI.validate: each user is
validated in order, propagating the first failure. -/
def validate_users : List EventUser → Except PyErr Unit
  | [] => Except.ok ()
  | u :: rest => do
    u.validate
    validate_users rest

/-- EventAPI.validate from event.py: validate_str on bot_id/api_key/event
(holds by typing here), then an AssertionError when users is empty or longer
than max_user, then each user's own validation; the final
validate_type(dict, ...) checks hold by typing. -/
def EventAPI.validate (e : EventAPI) : Except PyErr Unit :=
  if e.users.isEmpty then
    Except.error (PyErr.assertionError "users must contain at least one user")
  else if e.users.length > e.max_user then
    Except.error (PyErr.assertionError "users must contain at most max_user users")
  else validate_users e.users

/-- EventAPI.render from event.py: the event sub-dict is built first (an empty
data dict is falsy and dropped), then validate() runs, then the body is
assembled with None values removed. -/
def EventAPI.render (e : EventAPI) : Except PyErr PyVal := do
  let event := PyVal.dict (remove_none_item
    [("name", PyVal.str e.event),
     ("data", if e.data.isEmpty then PyVal.none else PyVal.dict e.data)])
  e.validate
  pure (PyVal.dict (remove_none_item
    [("event", event),
     ("user", if e.users.isEmpty then PyVal.none
              else PyVal.list (e.users.map EventUser.render)),
     ("params", if e.params.isEmpty then PyVal.none else PyVal.dict e.params),
     ("option", optDict e.option)]))

/-- EventAPI.headers from event.py: when api_key does not already start with
the scheme token, self.api_key is overwritten with the prefixed key; the
mutation is modelled by returning the updated object with the header dict. -/
def EventAPI.headers (e : EventAPI) : EventAPI × List (String × String) :=
  let key := if pyStartswith e.api_key "KakaoAK " then e.api_key
             else "KakaoAK " ++ e.api_key
  ({ e with api_key := key },
   [("Content-Type", "application/json"), ("Authorization", key)])

/-- EventAPI.url from event.py: the dev-channel branch interpolates the stored
bot_id between a literal single quote and the characters "!'", on the
dev-bot-api host; otherwise the plain bot-api URL is returned. -/
def EventAPI.url (e : EventAPI) : String :=
  if e.is_devchannel then
    "https://dev-bot-api.kakao.com/v2/bots/\x27" ++ e.bot_id ++ "!\x27/talk"
  else
    "https://bot-api.kakao.com/v2/bots/" ++ e.bot_id ++ "/talk"

/-- CheckEventAPI from event.py: task id and api key. -/
structure CheckEventAPI where
  task_id : String
  api_key : String

/-- CheckEventAPI.validate from event.py: validate_str on two present strings,
which holds by typing here. -/
def CheckEventAPI.validate (_c : CheckEventAPI) : Except PyErr Unit :=
  Except.ok ()

/-- CheckEventAPI.render from event.py: validates, then computes the headers
from a local copy of api_key (no mutation), prefixing the scheme token when it
is not already present. -/
def CheckEventAPI.render (c : CheckEventAPI) : Except PyErr (List (String × String)) := do
  c.validate
  let key := if pyStartswith c.api_key "KakaoAK " then c.api_key
             else "KakaoAK " ++ c.api_key
  pure [("Authorization", key), ("Content-Type", "application/json")]

/-- CheckEventAPI.headers from event.py: returns self.render(). -/
def CheckEventAPI.headers (c : CheckEventAPI) : Except PyErr (List (String × String)) :=
  c.render

/-- CheckEventAPI.url from event.py. -/
def CheckEventAPI.url (c : CheckEventAPI) : String :=
  "https://bot-api.kakao.com/v2/tasks/" ++ c.task_id

/-- Membership in remove_none_item output: the pair was present in the input
and its value is not None. -/
theorem mem_remove_none_item : ∀ {l : List (String × PyVal)} {p : String × PyVal},
    p ∈ remove_none_item l → p ∈ l ∧ p.2 ≠ PyVal.none := by
  intro l
  induction l with
  | nil => intro p h; simp [remove_none_item] at h
  | cons q rest ih =>
    intro p h
    obtain ⟨k, v⟩ := q
    cases v with
    | none =>
      have h2 := ih (by simpa [remove_none_item] using h)
      exact ⟨List.mem_cons_of_mem _ h2.1, h2.2⟩
    | str s =>
      rcases (by simpa [remove_none_item] using h :
          p = (k, PyVal.str s) ∨ p ∈ remove_none_item rest) with h1 | h1
      · subst h1; exact ⟨List.mem_cons_self _ _, by simp⟩
      · have h2 := ih h1
        exact ⟨List.mem_cons_of_mem _ h2.1, h2.2⟩
    | int n =>
      rcases (by simpa [remove_none_item] using h :
          p = (k, PyVal.int n) ∨ p ∈ remove_none_item rest) with h1 | h1
      · subst h1; exact ⟨List.mem_cons_self _ _, by simp⟩
      · have h2 := ih h1
        exact ⟨List.mem_cons_of_mem _ h2.1, h2.2⟩
    | bool b =>
      rcases (by simpa [remove_none_item] using h :
          p = (k, PyVal.bool b) ∨ p ∈ remove_none_item rest) with h1 | h1
      · subst h1; exact ⟨List.mem_cons_self _ _, by simp⟩
      · have h2 := ih h1
        exact ⟨List.mem_cons_of_mem _ h2.1, h2.2⟩
    | dict d =>
      rcases (by simpa [remove_none_item] using h :
          p = (k, PyVal.dict d) ∨ p ∈ remove_none_item rest) with h1 | h1
      · subst h1; exact ⟨List.mem_cons_self _ _, by simp⟩
      · have h2 := ih h1
        exact ⟨List.mem_cons_of_mem _ h2.1, h2.2⟩
    | list xs =>
      rcases (by simpa [remove_none_item] using h :
          p = (k, PyVal.list xs) ∨ p ∈ remove_none_item rest) with h1 | h1
      · subst h1; exact ⟨List.mem_cons_self _ _, by simp⟩
      · have h2 := ih h1
        exact ⟨List.mem_cons_of_mem _ h2.1, h2.2⟩

/-- Inversion of a successful Except bind. -/
theorem except_bind_ok {α β : Type} {x : Except PyErr α} {f : α → Except PyErr β} {b : β}
    (h : x >>= f = Except.ok b) : ∃ a, x = Except.ok a ∧ f a = Except.ok b := by
  cases x with
  | error e => exact absurd h (by simp [Bind.bind, Except.bind])
  | ok a => exact ⟨a, rfl, by simpa [Bind.bind, Except.bind] using h⟩

/-- A list is a Boolean prefix of itself followed by anything. -/
theorem charsPrefix_self_append : ∀ (p t : List Char), charsPrefix p (p ++ t) = true := by
  intro p
  induction p with
  | nil => intro t; rfl
  | cons a as ih => intro t; simp [charsPrefix, ih]

/-- String append acts as list append on the underlying character data. -/
theorem str_data_append (s t : String) : (s ++ t).data = s.data ++ t.data := by
  cases s; cases t; rfl

/-- Any string extended on the right still starts with the original prefix. -/
theorem pyStartswith_append (p s : String) : pyStartswith (p ++ s) p = true := by
  unfold pyStartswith
  rw [str_data_append]
  exact charsPrefix_self_append _ _

/-- C10: ItemCardComponent.remove_item evaluates its first positional argument
unconditionally, so every call with no positional arguments — in particular one
passing the target only as the item= or index= keyword — raises IndexError
before any keyword branch is reached. -/
theorem itemcard_remove_item_kwargs_indexerror :
    ∀ (c : ItemCardComponent) (kw : RemoveItemKwargs),
    c.remove_item [] kw = Except.error PyErr.indexError := by
  intro c kw
  rfl

/-- C4: the dual-mode add operations of ListCardComponent are equivalent:
adding a pre-built ListItem and adding the identical raw constructor fields
produce components with identical rendered output, and likewise for add_button
with a pre-built Button versus its raw constructor arguments. -/
theorem listcard_dual_mode_add_equiv :
    ∀ (c : ListCardComponent) (t : String) (d iu : Option String) (lk : Option Link)
      (a bid mt : Option String) (ex : Option (List (String × PyVal)))
      (lbl act : String) (w m p bi : Option String) (ex2 : Option (List (String × PyVal))),
    (c.add_item (AddItemArg.prebuilt (ListItem.mk t d iu lk a bid mt ex))).render
        = (c.add_item (AddItemArg.fields t d iu lk a bid mt ex)).render ∧
    (c.add_button (AddButtonArg.prebuilt (Button.mk lbl act w m p bi ex2))).render
        = (c.add_button (AddButtonArg.fields lbl act w m p bi ex2)).render := by
  intro c t d iu lk a bid mt ex lbl act w m p bi ex2
  exact ⟨rfl, rfl⟩

/-- C6: a TextCardComponent with both title and description unset fails
validation and render with the same ValueError; with exactly one of the two
set and no buttons, render succeeds and the output holds exactly that one
field under its own key. -/
theorem textcard_title_description_rule :
    ∀ (t d : String) (bs : List Button),
    (TextCardComponent.mk Option.none Option.none bs).validate
        = Except.error (PyErr.valueError "title or description must not be None") ∧
    (TextCardComponent.mk Option.none Option.none bs).render
        = Except.error (PyErr.valueError "title or description must not be None") ∧
    (TextCardComponent.mk (Option.some t) Option.none []).render
        = Except.ok (PyVal.dict [("title", PyVal.str t)]) ∧
    (TextCardComponent.mk Option.none (Option.some d) []).render
        = Except.ok (PyVal.dict [("description", PyVal.str d)]) := by
  intro t d bs
  exact ⟨rfl, rfl, rfl, rfl⟩

/-- C1 (amended): render() invokes validate() first — failing with exactly the
error validate() raises — for ContextParam, EventAPI and the card components,
but Context.render() never calls validate(): a Context with empty params always
renders successfully, whatever validate() would say about its fields. -/
theorem render_validates_first_except_context :
    (∀ (p : ContextParam) (err : PyErr),
      p.validate = Except.error err → p.render = Except.error err) ∧
    (∀ (e : EventAPI) (err : PyErr),
      e.validate = Except.error err → e.render = Except.error err) ∧
    (∀ (c : TextCardComponent) (err : PyErr),
      c.validate = Except.error err → c.render = Except.error err) ∧
    (∀ (c : ListCardComponent) (err : PyErr),
      c.validate = Except.error err → c.render = Except.error err) ∧
    (∀ (c : Context), c.params = [] → ∃ out, c.render = Except.ok out) := by
  refine ⟨?_, ?_, ?_, ?_, ?_⟩
  · intro p err h
    unfold ContextParam.render
    rw [h]
    rfl
  · intro e err h
    simp only [EventAPI.render]
    rw [h]
    rfl
  · intro c err h
    unfold TextCardComponent.render
    rw [h]
    rfl
  · intro c err h
    unfold ListCardComponent.render
    rw [h]
    rfl
  · intro c h
    refine ⟨PyVal.dict (remove_none_item
      [("name", c.name), ("lifeSpan", c.lifespan), ("ttl", c.ttl),
       ("params", PyVal.none)]), ?_⟩
    unfold Context.render
    rw [h]
    rfl

/-- C1 counterexample: a Context whose name is the integer 5 (not a string)
fails validate() with an InvalidTypeError, yet render() succeeds and returns
the dict — render() does not call validate() first. -/
theorem context_render_skips_validate_counterexample :
    (Context.mk (PyVal.int 5) (PyVal.int 1) PyVal.none []).validate
        = Except.error (PyErr.invalidType "str expected") ∧
    (Context.mk (PyVal.int 5) (PyVal.int 1) PyVal.none []).render
        = Except.ok (PyVal.dict [("name", PyVal.int 5), ("lifeSpan", PyVal.int 1)]) :=
  ⟨rfl, rfl⟩

/-- Witness for the amended C1 theorem at concrete invalid objects. -/
theorem render_validates_first_witness :
    (ContextParam.mk (PyVal.int 0) PyVal.none).render
        = Except.error (PyErr.invalidType "str expected") ∧
    (EventAPI.mk "b" "k" "e" [] [] [] Option.none false 100).render
        = Except.error (PyErr.assertionError "users must contain at least one user") ∧
    (TextCardComponent.mk Option.none Option.none []).render
        = Except.error (PyErr.valueError "title or description must not be None") ∧
    (ListCardComponent.mk
        (ListItem.mk "h" Option.none Option.none Option.none Option.none Option.none
          Option.none Option.none) [] [] 2 5).render
        = Except.error (PyErr.assertionError "ListCardComponent requires at least one item") ∧
    ∃ out, (Context.mk (PyVal.int 7) (PyVal.int 1) PyVal.none []).render = Except.ok out :=
  ⟨render_validates_first_except_context.1 _ _ rfl,
   render_validates_first_except_context.2.1 _ _ rfl,
   render_validates_first_except_context.2.2.1 _ _ rfl,
   render_validates_first_except_context.2.2.2.1 _ _ rfl,
   render_validates_first_except_context.2.2.2.2 _ rfl⟩

/-- C2 counterexample: for bot_id "abc!" with is_devchannel, the stored botId
is the stripped "abc", but the url is not the dev-host URL with the stripped
botId substituted — it wraps the botId in literal single quotes and re-appends
the marker. -/
theorem devchannel_url_counterexample :
    (EventAPI.init "abc!" "key" "ev" [] [] [] Option.none true 100).bot_id = "abc" ∧
    (EventAPI.init "abc!" "key" "ev" [] [] [] Option.none true 100).url
        = "https://dev-bot-api.kakao.com/v2/bots/\x27abc!\x27/talk" ∧
    (EventAPI.init "abc!" "key" "ev" [] [] [] Option.none true 100).url
        ≠ "https://dev-bot-api.kakao.com/v2/bots/abc/talk" := by
  exact ⟨by decide, by decide, by decide⟩

/-- C2 (amended): with is_devchannel and a bot_id ending in the marker, the
marker is stripped from the stored botId, and url interpolates that stripped
botId between a literal single quote and the characters "!'" on the
dev-bot-api host. -/
theorem devchannel_url_shape :
    ∀ (bid ak ev : String) (us : List EventUser) (dt pr : List (String × PyVal))
      (op : Option (List (String × PyVal))) (mu : Nat),
    pyEndswith bid "!" = true →
    (EventAPI.init bid ak ev us dt pr op true mu).bot_id = pyDropLast bid ∧
    (EventAPI.init bid ak ev us dt pr op true mu).url
        = "https://dev-bot-api.kakao.com/v2/bots/\x27" ++ pyDropLast bid ++ "!\x27/talk" := by
  intro bid ak ev us dt pr op mu h
  constructor
  · simp [EventAPI.init, h]
  · simp [EventAPI.init, EventAPI.url, h]

/-- Witness for the amended C2 theorem at the concrete bot_id "abc!". -/
theorem devchannel_url_shape_witness :
    pyEndswith "abc!" "!" = true ∧
    (EventAPI.init "abc!" "key" "ev" [] [] [] Option.none true 100).bot_id
        = pyDropLast "abc!" ∧
    (EventAPI.init "abc!" "key" "ev" [] [] [] Option.none true 100).url
        = "https://dev-bot-api.kakao.com/v2/bots/\x27" ++ pyDropLast "abc!" ++ "!\x27/talk" :=
  ⟨by decide,
   (devchannel_url_shape "abc!" "key" "ev" [] [] [] Option.none 100 (by decide)).1,
   (devchannel_url_shape "abc!" "key" "ev" [] [] [] Option.none 100 (by decide)).2⟩

/-- Bind on a successful Except reduces to the continuation. -/
@[simp] theorem except_ok_bind {α β : Type} (a : α) (f : α → Except PyErr β) :
    (Except.ok a >>= f) = f a := rfl

/-- Bind on a failed Except propagates the error. -/
@[simp] theorem except_error_bind {α β : Type} (e : PyErr) (f : α → Except PyErr β) :
    ((Except.error e : Except PyErr α) >>= f) = Except.error e := rfl

/-- Pure in the Except monad is Except.ok. -/
@[simp] theorem except_pure_eq_ok {α : Type} (a : α) :
    (pure a : Except PyErr α) = Except.ok a := rfl

/-- A button list whose members all render successfully renders successfully. -/
theorem render_buttons_ok : ∀ (l : List Button),
    (∀ b ∈ l, ∃ v, b.render = Except.ok v) → ∃ vs, render_buttons l = Except.ok vs := by
  intro l
  induction l with
  | nil => intro _; exact ⟨[], rfl⟩
  | cons b rest ih =>
    intro h
    obtain ⟨v, hv⟩ := h b (List.mem_cons_self _ _)
    obtain ⟨vs, hvs⟩ := ih (fun b2 hb2 => h b2 (List.mem_cons_of_mem _ hb2))
    exact ⟨v :: vs, by simp [render_buttons, hv, hvs]⟩

/-- A ListItem list whose members all render successfully renders successfully. -/
theorem render_listitems_ok : ∀ (l : List ListItem),
    (∀ li ∈ l, ∃ v, li.render = Except.ok v) → ∃ vs, render_listitems l = Except.ok vs := by
  intro l
  induction l with
  | nil => intro _; exact ⟨[], rfl⟩
  | cons li rest ih =>
    intro h
    obtain ⟨v, hv⟩ := h li (List.mem_cons_self _ _)
    obtain ⟨vs, hvs⟩ := ih (fun li2 hli2 => h li2 (List.mem_cons_of_mem _ hli2))
    exact ⟨v :: vs, by simp [render_listitems, hv, hvs]⟩

/-- C5: for a ListCardComponent with the default caps (max_items 5,
max_buttons 2), validation and render fail on an empty item list, on 6 items
and on more than 2 buttons, while exactly 5 items with at most 2 buttons
validates; when every owned object also renders, render succeeds as well. -/
theorem listcard_cardinality_caps :
    ∀ (hd : ListItem) (items : List ListItem) (btns : List Button),
    (items = [] →
      (ListCardComponent.mk hd items btns 2 5).validate
          = Except.error (PyErr.assertionError "ListCardComponent requires at least one item") ∧
      (ListCardComponent.mk hd items btns 2 5).render
          = Except.error (PyErr.assertionError "ListCardComponent requires at least one item")) ∧
    (items.length = 6 →
      (ListCardComponent.mk hd items btns 2 5).validate
          = Except.error (PyErr.assertionError "ListCard allows at most max_items items") ∧
      (ListCardComponent.mk hd items btns 2 5).render
          = Except.error (PyErr.assertionError "ListCard allows at most max_items items")) ∧
    (items.length = 5 → btns.length ≤ 2 →
      (ListCardComponent.mk hd items btns 2 5).validate = Except.ok ()) ∧
    (1 ≤ items.length → items.length ≤ 5 → 2 < btns.length →
      (ListCardComponent.mk hd items btns 2 5).validate
          = Except.error (PyErr.assertionError "ListCard allows at most max_buttons buttons") ∧
      (ListCardComponent.mk hd items btns 2 5).render
          = Except.error (PyErr.assertionError "ListCard allows at most max_buttons buttons")) ∧
    (items.length = 5 → btns.length ≤ 2 →
      (∃ v, hd.render = Except.ok v) →
      (∀ li ∈ items, ∃ v, li.render = Except.ok v) →
      (∀ b ∈ btns, ∃ v, b.render = Except.ok v) →
      ∃ out, (ListCardComponent.mk hd items btns 2 5).render = Except.ok out) := by
  intro hd items btns
  refine ⟨?_, ?_, ?_, ?_, ?_⟩
  · intro h
    subst h
    exact ⟨rfl, rfl⟩
  · intro h
    have hv : (ListCardComponent.mk hd items btns 2 5).validate
        = Except.error (PyErr.assertionError "ListCard allows at most max_items items") := by
      simp [ListCardComponent.validate, h]
    refine ⟨hv, ?_⟩
    unfold ListCardComponent.render
    rw [hv]
    rfl
  · intro h5 hb2
    simp [ListCardComponent.validate, h5, Nat.not_lt.mpr hb2]
  · intro h1 h5 hb
    have hv : (ListCardComponent.mk hd items btns 2 5).validate
        = Except.error (PyErr.assertionError "ListCard allows at most max_buttons buttons") := by
      simp [ListCardComponent.validate, Nat.not_lt.mpr h1, Nat.not_lt.mpr h5, hb]
    refine ⟨hv, ?_⟩
    unfold ListCardComponent.render
    rw [hv]
    rfl
  · intro h5 hb2 hhd hitems hbtns
    have hval : (ListCardComponent.mk hd items btns 2 5).validate = Except.ok () := by
      simp [ListCardComponent.validate, h5, Nat.not_lt.mpr hb2]
    obtain ⟨hv, hhv⟩ := hhd
    obtain ⟨vs, hvs⟩ := render_listitems_ok items hitems
    obtain ⟨bs, hbs⟩ := render_buttons_ok btns hbtns
    cases items with
    | nil => simp at h5
    | cons i tl =>
      cases btns with
      | nil =>
        refine ⟨PyVal.dict (remove_none_item
          [("header", hv), ("items", PyVal.list vs), ("buttons", PyVal.none)]), ?_⟩
        simp [ListCardComponent.render, renderListitemsOpt, renderButtonsOpt, hval, hhv, hvs]
      | cons b bt =>
        refine ⟨PyVal.dict (remove_none_item
          [("header", hv), ("items", PyVal.list vs), ("buttons", PyVal.list bs)]), ?_⟩
        simp [ListCardComponent.render, renderListitemsOpt, renderButtonsOpt, hval, hhv, hvs, hbs]

/-- Witness for the C5 theorem at concrete lists. -/
theorem listcard_cardinality_caps_witness :
    (ListCardComponent.mk (ListItem.mk "h" Option.none Option.none Option.none Option.none
        Option.none Option.none Option.none) [] [] 2 5).validate
      = Except.error (PyErr.assertionError "ListCardComponent requires at least one item") ∧
    (ListCardComponent.mk (ListItem.mk "h" Option.none Option.none Option.none Option.none
        Option.none Option.none Option.none)
        (List.replicate 6 (ListItem.mk "a" Option.none Option.none Option.none Option.none
          Option.none Option.none Option.none)) [] 2 5).validate
      = Except.error (PyErr.assertionError "ListCard allows at most max_items items") ∧
    (ListCardComponent.mk (ListItem.mk "h" Option.none Option.none Option.none Option.none
        Option.none Option.none Option.none)
        (List.replicate 5 (ListItem.mk "a" Option.none Option.none Option.none Option.none
          Option.none Option.none Option.none)) [] 2 5).validate = Except.ok () ∧
    ∃ out, (ListCardComponent.mk (ListItem.mk "h" Option.none Option.none Option.none
        Option.none Option.none Option.none Option.none)
        (List.replicate 5 (ListItem.mk "a" Option.none Option.none Option.none Option.none
          Option.none Option.none Option.none)) [] 2 5).render = Except.ok out := by
  refine ⟨(listcard_cardinality_caps _ _ _).1 rfl |>.1,
    ((listcard_cardinality_caps _ _ _).2.1 (by simp)).1,
    (listcard_cardinality_caps _ _ _).2.2.1 (by simp) (by simp),
    (listcard_cardinality_caps _ _ _).2.2.2.2 (by simp) (by simp)
      ⟨_, rfl⟩ ?_ (by simp)⟩
  intro li hli
  rw [List.eq_of_mem_replicate hli]
  exact ⟨_, rfl⟩

/-- Validation loop success: when every user validates, validate_users
succeeds. -/
theorem validate_users_ok : ∀ (l : List EventUser),
    (∀ u ∈ l, u.validate = Except.ok ()) → validate_users l = Except.ok () := by
  intro l
  induction l with
  | nil => intro _; rfl
  | cons v rest ih =>
    intro h
    simp [validate_users, h v (List.mem_cons_self _ _),
      ih (fun u hu => h u (List.mem_cons_of_mem _ hu))]

/-- Validation loop failure: a failing member makes validate_users fail. -/
theorem validate_users_not_ok : ∀ (l : List EventUser) (u : EventUser),
    u ∈ l → u.validate ≠ Except.ok () → validate_users l ≠ Except.ok () := by
  intro l
  induction l with
  | nil => intro u hu; simp at hu
  | cons v rest ih =>
    intro u hu hne hcon
    unfold validate_users at hcon
    cases hv : v.validate with
    | error e => rw [hv] at hcon; simp at hcon
    | ok a =>
      rw [hv] at hcon
      simp at hcon
      rcases List.mem_cons.mp hu with h1 | h1
      · subst h1
        cases a
        exact hne hv
      · exact ih u h1 hne hcon

/-- C7: EventAPI.validate fails on an empty user list, fails when the list is
longer than max_user, succeeds with exactly max_user individually valid users,
and fails whenever any contained user fails its own validation. -/
theorem eventapi_user_cap :
    ∀ (e : EventAPI),
    (e.users = [] →
      e.validate = Except.error (PyErr.assertionError "users must contain at least one user")) ∧
    (e.max_user < e.users.length →
      e.validate = Except.error (PyErr.assertionError "users must contain at most max_user users")) ∧
    (e.users.length = e.max_user → 1 ≤ e.max_user →
      (∀ u ∈ e.users, u.validate = Except.ok ()) → e.validate = Except.ok ()) ∧
    ((∃ u ∈ e.users, u.validate ≠ Except.ok ()) → e.validate ≠ Except.ok ()) := by
  intro e
  refine ⟨?_, ?_, ?_, ?_⟩
  · intro h
    simp [EventAPI.validate, h]
  · intro h
    cases hu : e.users with
    | nil => rw [hu] at h; simp at h
    | cons u us =>
      rw [hu] at h
      have h2 : e.max_user < us.length + 1 := by simpa using h
      simp [EventAPI.validate, hu, h2]
  · intro hlen h1 hall
    cases hu : e.users with
    | nil =>
      rw [hu] at hlen
      simp at hlen
      omega
    | cons u us =>
      rw [hu] at hlen hall
      have hlen2 : us.length + 1 = e.max_user := by simpa using hlen
      have hcond : ¬ (e.max_user < us.length + 1) := by omega
      simp [EventAPI.validate, hu, hcond, validate_users_ok _ hall]
  · rintro ⟨u, hu, hne⟩ hok
    cases hus : e.users with
    | nil => rw [hus] at hu; simp at hu
    | cons v us =>
      rw [hus] at hu
      unfold EventAPI.validate at hok
      rw [hus] at hok
      simp only [List.isEmpty_cons] at hok
      by_cases hgt : e.max_user < us.length + 1
      · simp [hgt] at hok
      · simp [hgt] at hok
        exact validate_users_not_ok _ u hu hne hok

/-- Witness for the C7 theorem at concrete user lists (cap 100). -/
theorem eventapi_user_cap_witness :
    (EventAPI.mk "b" "k" "e" [] [] [] Option.none false 100).validate
        = Except.error (PyErr.assertionError "users must contain at least one user") ∧
    (EventAPI.mk "b" "k" "e"
        (List.replicate 101 (EventUser.mk "appUserId" (PyVal.str "u") Option.none))
        [] [] Option.none false 100).validate
        = Except.error (PyErr.assertionError "users must contain at most max_user users") ∧
    (EventAPI.mk "b" "k" "e"
        (List.replicate 100 (EventUser.mk "appUserId" (PyVal.str "u") Option.none))
        [] [] Option.none false 100).validate = Except.ok () ∧
    (EventAPI.mk "b" "k" "e"
        [EventUser.mk "wrongType" (PyVal.str "u") Option.none]
        [] [] Option.none false 100).validate ≠ Except.ok () := by
  refine ⟨(eventapi_user_cap _).1 rfl,
    (eventapi_user_cap _).2.1 (by simp),
    (eventapi_user_cap _).2.2.1 (by simp) (by decide) ?_,
    (eventapi_user_cap _).2.2.2
      ⟨EventUser.mk "wrongType" (PyVal.str "u") Option.none, by simp, ?_⟩⟩
  · intro u hu
    rw [List.eq_of_mem_replicate hu]
    rfl
  · intro hx
    exact Except.noConfusion hx

/-- C9: the Authorization header is the api key with the scheme token
"KakaoAK " prepended exactly once: a key already carrying the token is not
prefixed again, computing EventAPI.headers twice (through the mutated api_key)
yields the same headers as once, and CheckEventAPI.headers/render agree and
behave the same way. -/
theorem auth_header_idempotent :
    ∀ (e : EventAPI) (c : CheckEventAPI),
    (pyStartswith e.api_key "KakaoAK " = true →
      (e.headers).2 = [("Content-Type", "application/json"), ("Authorization", e.api_key)]) ∧
    (pyStartswith e.api_key "KakaoAK " = false →
      (e.headers).2 = [("Content-Type", "application/json"),
        ("Authorization", "KakaoAK " ++ e.api_key)]) ∧
    ((e.headers).1.headers).2 = (e.headers).2 ∧
    c.headers = c.render ∧
    (pyStartswith c.api_key "KakaoAK " = true →
      c.render = Except.ok [("Authorization", c.api_key),
        ("Content-Type", "application/json")]) ∧
    (pyStartswith c.api_key "KakaoAK " = false →
      c.render = Except.ok [("Authorization", "KakaoAK " ++ c.api_key),
        ("Content-Type", "application/json")]) := by
  intro e c
  refine ⟨?_, ?_, ?_, rfl, ?_, ?_⟩
  · intro h
    simp [EventAPI.headers, h]
  · intro h
    simp [EventAPI.headers, h]
  · cases h : pyStartswith e.api_key "KakaoAK " with
    | true => simp [EventAPI.headers, h]
    | false => simp [EventAPI.headers, h, pyStartswith_append]
  · intro h
    simp [CheckEventAPI.render, CheckEventAPI.validate, h]
  · intro h
    simp [CheckEventAPI.render, CheckEventAPI.validate, h]

/-- Witness for the C9 theorem at concrete keys with and without the scheme
token. -/
theorem auth_header_idempotent_witness :
    pyStartswith "secret" "KakaoAK " = false ∧
    ((EventAPI.mk "b" "secret" "e" [] [] [] Option.none false 100).headers).2
        = [("Content-Type", "application/json"),
           ("Authorization", "KakaoAK " ++ "secret")] ∧
    pyStartswith "KakaoAK secret" "KakaoAK " = true ∧
    ((EventAPI.mk "b" "KakaoAK secret" "e" [] [] [] Option.none false 100).headers).2
        = [("Content-Type", "application/json"), ("Authorization", "KakaoAK secret")] ∧
    (((EventAPI.mk "b" "secret" "e" [] [] [] Option.none false 100).headers).1.headers).2
        = ((EventAPI.mk "b" "secret" "e" [] [] [] Option.none false 100).headers).2 ∧
    (CheckEventAPI.mk "t" "secret").render
        = Except.ok [("Authorization", "KakaoAK " ++ "secret"),
            ("Content-Type", "application/json")] := by
  refine ⟨by decide,
    (auth_header_idempotent _ (CheckEventAPI.mk "t" "secret")).2.1 (by decide),
    by decide,
    (auth_header_idempotent _ (CheckEventAPI.mk "t" "secret")).1 (by decide),
    (auth_header_idempotent (EventAPI.mk "b" "secret" "e" [] [] [] Option.none false 100)
      (CheckEventAPI.mk "t" "secret")).2.2.1,
    (auth_header_idempotent (EventAPI.mk "b" "secret" "e" [] [] [] Option.none false 100)
      (CheckEventAPI.mk "t" "secret")).2.2.2.2.2 (by decide)⟩

/-- Params dicts whose entries are all ContextParams with string values render
entrywise to the raw scalar values. -/
theorem renderCtxParams_strs : ∀ (ks : List (String × String × String)),
    renderCtxParams (ks.map fun kvr =>
      (kvr.1, CtxEntry.param (ContextParam.mk (PyVal.str kvr.2.1) (PyVal.str kvr.2.2))))
      = Except.ok (ks.map fun kvr => (kvr.1, PyVal.str kvr.2.1)) := by
  intro ks
  induction ks with
  | nil => rfl
  | cons kvr tl ih =>
    simp [renderCtxParams, ContextParam.render, ContextParam.validate, validate_str, ih]

/-- Looking a key up in a None-filtered dict skips an entry with a different
key whether or not that entry survives the filter. -/
theorem lookup_remove_none_cons (k k2 : String) (v2 : PyVal)
    (rest : List (String × PyVal)) (hk : (k == k2) = false) :
    List.lookup k (remove_none_item ((k2, v2) :: rest))
      = List.lookup k (remove_none_item rest) := by
  cases v2 <;> simp [remove_none_item, List.lookup, hk]

/-- C8: a ContextParam with string value and resolved_value renders to exactly
the scalar value — the rendered output is independent of resolved_value — and
a Context whose params are such ContextParams renders its params dict by
mapping each key to that scalar. -/
theorem contextparam_renders_value_only :
    ∀ (v r r2 : String),
    (ContextParam.mk (PyVal.str v) (PyVal.str r)).render = Except.ok (PyVal.str v) ∧
    (ContextParam.mk (PyVal.str v) (PyVal.str r)).render
        = (ContextParam.mk (PyVal.str v) (PyVal.str r2)).render ∧
    (∀ (name ls ttl : PyVal) (ks : List (String × String × String)), ks ≠ [] →
      ∃ m, (Context.mk name ls ttl (ks.map fun kvr =>
          (kvr.1, CtxEntry.param (ContextParam.mk (PyVal.str kvr.2.1)
            (PyVal.str kvr.2.2))))).render = Except.ok (PyVal.dict m) ∧
        List.lookup "params" m
          = Option.some (PyVal.dict (ks.map fun kvr => (kvr.1, PyVal.str kvr.2.1)))) := by
  intro v r r2
  refine ⟨rfl, rfl, ?_⟩
  intro name ls ttl ks hks
  cases ks with
  | nil => exact absurd rfl hks
  | cons kvr tl =>
    have hrcp := renderCtxParams_strs (kvr :: tl)
    simp only [List.map_cons] at hrcp
    refine ⟨remove_none_item
      [("name", name), ("lifeSpan", ls), ("ttl", ttl),
       ("params", PyVal.dict ((kvr :: tl).map fun kvr => (kvr.1, PyVal.str kvr.2.1)))],
      ?_, ?_⟩
    · unfold Context.render
      simp only [List.map_cons]
      simp [hrcp]
    · rw [lookup_remove_none_cons "params" "name" name _ (by decide)]
      rw [lookup_remove_none_cons "params" "lifeSpan" ls _ (by decide)]
      rw [lookup_remove_none_cons "params" "ttl" ttl _ (by decide)]
      simp [remove_none_item, List.lookup]

/-- Witness for the C8 theorem at a concrete param. -/
theorem contextparam_renders_value_only_witness :
    (ContextParam.mk (PyVal.str "v") (PyVal.str "r")).render = Except.ok (PyVal.str "v") ∧
    ∃ m, (Context.mk (PyVal.str "n") (PyVal.int 1) PyVal.none
        [("key", CtxEntry.param (ContextParam.mk (PyVal.str "v") (PyVal.str "r")))]).render
        = Except.ok (PyVal.dict m) ∧
      List.lookup "params" m = Option.some (PyVal.dict [("key", PyVal.str "v")]) := by
  refine ⟨(contextparam_renders_value_only "v" "r" "r").1, ?_⟩
  have h := (contextparam_renders_value_only "v" "r" "r").2.2 (PyVal.str "n")
    (PyVal.int 1) PyVal.none [("key", "v", "r")] (by simp)
  simpa using h

/-- The final pure of a render yields a None-filtered dict, so no surviving
value is None. -/
theorem no_none_of_pure_dict {L m : List (String × PyVal)}
    (h : (pure (PyVal.dict (remove_none_item L)) : Except PyErr PyVal)
        = Except.ok (PyVal.dict m)) : ∀ p ∈ m, p.2 ≠ PyVal.none := by
  have h2 : Except.ok (PyVal.dict (remove_none_item L))
      = Except.ok (PyVal.dict m) := h
  injection h2 with h3
  injection h3 with h4
  intro p hp
  rw [← h4] at hp
  exact (mem_remove_none_item hp).2

/-- C3: the mapping returned by a successful render() of any leaf or card
object holds no key bound to None — absent optional fields are structurally
omitted — and in particular BasicCardComponent's forwardable key is absent
whenever the flag is False. -/
theorem render_omits_absent_fields :
    (∀ (l : Link) (m : List (String × PyVal)),
      l.render = Except.ok (PyVal.dict m) → ∀ p ∈ m, p.2 ≠ PyVal.none) ∧
    (∀ (t : Thumbnail) (m : List (String × PyVal)),
      t.render = Except.ok (PyVal.dict m) → ∀ p ∈ m, p.2 ≠ PyVal.none) ∧
    (∀ (b : Button) (m : List (String × PyVal)),
      b.render = Except.ok (PyVal.dict m) → ∀ p ∈ m, p.2 ≠ PyVal.none) ∧
    (∀ (li : ListItem) (m : List (String × PyVal)),
      li.render = Except.ok (PyVal.dict m) → ∀ p ∈ m, p.2 ≠ PyVal.none) ∧
    (∀ (i : Item) (m : List (String × PyVal)),
      i.render = Except.ok (PyVal.dict m) → ∀ p ∈ m, p.2 ≠ PyVal.none) ∧
    (∀ (u : EventUser) (m : List (String × PyVal)),
      u.render = PyVal.dict m → ∀ p ∈ m, p.2 ≠ PyVal.none) ∧
    (∀ (c : TextCardComponent) (m : List (String × PyVal)),
      c.render = Except.ok (PyVal.dict m) → ∀ p ∈ m, p.2 ≠ PyVal.none) ∧
    (∀ (c : BasicCardComponent) (m : List (String × PyVal)),
      c.render = Except.ok (PyVal.dict m) → ∀ p ∈ m, p.2 ≠ PyVal.none) ∧
    (∀ (c : ListCardComponent) (m : List (String × PyVal)),
      c.render = Except.ok (PyVal.dict m) → ∀ p ∈ m, p.2 ≠ PyVal.none) ∧
    (∀ (c : BasicCardComponent) (m : List (String × PyVal)), c.forwardable = false →
      c.render = Except.ok (PyVal.dict m) → ∀ p ∈ m, p.1 ≠ "forwardable") := by
  refine ⟨?_, ?_, ?_, ?_, ?_, ?_, ?_, ?_, ?_, ?_⟩
  · intro l m h
    unfold Link.render at h
    obtain ⟨_, _, h⟩ := except_bind_ok h
    exact no_none_of_pure_dict h
  · intro t m h
    unfold Thumbnail.render at h
    obtain ⟨_, _, h⟩ := except_bind_ok h
    exact no_none_of_pure_dict h
  · intro b m h
    unfold Button.render at h
    obtain ⟨_, _, h⟩ := except_bind_ok h
    exact no_none_of_pure_dict h
  · intro li m h
    unfold ListItem.render at h
    obtain ⟨_, _, h⟩ := except_bind_ok h
    obtain ⟨_, _, h⟩ := except_bind_ok h
    exact no_none_of_pure_dict h
  · intro i m h
    unfold Item.render at h
    have h2 : PyVal.dict (remove_none_item
        [("title", PyVal.str i.title), ("description", PyVal.str i.description)])
        = PyVal.dict m := by injection h
    injection h2 with h3
    intro p hp
    rw [← h3] at hp
    exact (mem_remove_none_item hp).2
  · intro u m h
    unfold EventUser.render at h
    injection h with h3
    intro p hp
    rw [← h3] at hp
    exact (mem_remove_none_item hp).2
  · intro c m h
    unfold TextCardComponent.render at h
    obtain ⟨_, _, h⟩ := except_bind_ok h
    obtain ⟨_, _, h⟩ := except_bind_ok h
    exact no_none_of_pure_dict h
  · intro c m h
    unfold BasicCardComponent.render at h
    obtain ⟨_, _, h⟩ := except_bind_ok h
    obtain ⟨_, _, h⟩ := except_bind_ok h
    obtain ⟨_, _, h⟩ := except_bind_ok h
    exact no_none_of_pure_dict h
  · intro c m h
    unfold ListCardComponent.render at h
    obtain ⟨_, _, h⟩ := except_bind_ok h
    obtain ⟨_, _, h⟩ := except_bind_ok h
    obtain ⟨_, _, h⟩ := except_bind_ok h
    obtain ⟨_, _, h⟩ := except_bind_ok h
    exact no_none_of_pure_dict h
  · intro c m hf h
    unfold BasicCardComponent.render at h
    rw [hf] at h
    obtain ⟨_, _, h⟩ := except_bind_ok h
    obtain ⟨th, _, h⟩ := except_bind_ok h
    obtain ⟨bs, _, h⟩ := except_bind_ok h
    have h2 : (Except.ok (PyVal.dict (remove_none_item
        [("thumbnail", th), ("title", optStr c.title),
         ("description", optStr c.description), ("buttons", bs),
         ("forwardable", PyVal.none)])) : Except PyErr PyVal)
        = Except.ok (PyVal.dict m) := by
      simpa using h
    injection h2 with h3
    injection h3 with h4
    intro p hp
    rw [← h4] at hp
    obtain ⟨hmem5, hne⟩ := mem_remove_none_item hp
    simp only [List.mem_cons, List.not_mem_nil, or_false] at hmem5
    rcases hmem5 with h1 | h1 | h1 | h1 | h1
    · subst h1; simp
    · subst h1; simp
    · subst h1; simp
    · subst h1; simp
    · rw [h1] at hne; exact absurd rfl hne

/-- Witness for the C3 theorem at a concrete link and a concrete basic card
with forwardable set to False. -/
theorem render_omits_absent_fields_witness :
    (Link.mk (Option.some "w") Option.none Option.none).render
        = Except.ok (PyVal.dict [("web", PyVal.str "w")]) ∧
    (∀ p ∈ [("web", PyVal.str "w")], Prod.snd p ≠ PyVal.none) ∧
    (BasicCardComponent.mk (Thumbnail.mk "img" Option.none false Option.none Option.none)
        Option.none Option.none [] false).render
        = Except.ok (PyVal.dict [("thumbnail", PyVal.dict [("imageUrl", PyVal.str "img")])]) ∧
    (∀ p ∈ [("thumbnail", PyVal.dict [("imageUrl", PyVal.str "img")])],
      Prod.snd p ≠ PyVal.none) ∧
    (∀ p ∈ [("thumbnail", PyVal.dict [("imageUrl", PyVal.str "img")])],
      Prod.fst p ≠ "forwardable") := by
  refine ⟨rfl, ?_, rfl, ?_, ?_⟩
  · exact render_omits_absent_fields.1
      (Link.mk (Option.some "w") Option.none Option.none) _ rfl
  · exact render_omits_absent_fields.2.2.2.2.2.2.2.1
      (BasicCardComponent.mk (Thumbnail.mk "img" Option.none false Option.none Option.none)
        Option.none Option.none [] false) _ rfl
  · exact render_omits_absent_fields.2.2.2.2.2.2.2.2.2
      (BasicCardComponent.mk (Thumbnail.mk "img" Option.none false Option.none Option.none)
        Option.none Option.none [] false) _ rfl rfl
